import Mathlib

/-!
Shallow embedding of the multi-tenant retrieve-rerank-generate backend
(`backend/main.py`, `backend/database.py`) of the rag_pro repository.

Pure data flow is modelled directly; the external collaborators (embedding
similarity, cross-encoder scores, the language model, text extraction, the
text splitter, and the SQLite / Qdrant side effects) are passed in as
explicit function parameters or success/failure oracles, exactly at the
call sites where `main.py` invokes them.  Machine-level details that no
claim touches (HTTP transport, auth token decoding) are out of scope; the
handlers are modelled from the point where the resolved `user_id` is in
hand, as in the source.
-/

deriving instance DecidableEq for Except

/-- Payload attached to every vector record at ingest
(`main.py` lines 273-281): owner id, document id, filename, chunk index. -/
structure Payload where
  user_id : String
  doc_id : String
  filename : String
  chunk_id : Nat
deriving DecidableEq

/-- A record of the Qdrant collection: its payload plus the chunk text it
embeds.  The embedding vector itself is never inspected by the handlers;
similarity is supplied as an oracle, so the vector is omitted. -/
structure VecRecord where
  payload : Payload
  content : String
deriving DecidableEq

/-- The shared vector index (the `documents` Qdrant collection), as the list
of records it currently holds, in insertion order. -/
abbrev VectorIndex := List VecRecord

/-- The owner filter built in `chat` (`main.py` lines 314-321):
`Filter(must=[FieldCondition(key="metadata.user_id", match=MatchValue(value=user_id))])`. -/
structure OwnerFilter where
  must_user_id : String
deriving DecidableEq

/-- Whether a record satisfies the mandatory owner-equality condition.
Qdrant applies this server-side, inside the index query. -/
def matchesFilter (f : OwnerFilter) (r : VecRecord) : Bool :=
  r.payload.user_id == f.must_user_id

/-- A row of the SQLite `documents` table (`database.py` lines 38-48). -/
structure CatalogRow where
  id : String
  user_id : String
  filename : String
  file_path : String
  chunks : Nat
deriving DecidableEq

/-- The mutable state the handlers touch: the vector index, the relational
catalog, and the set of stored upload files (as their paths). -/
structure AppState where
  index : VectorIndex
  catalog : List CatalogRow
  files : List String
deriving DecidableEq

/-- A Python exception as observed by the handlers: either a FastAPI
`HTTPException(status_code, detail)` or a plain `Exception(msg)`. -/
inductive PyExn where
  | httpExn (status : Nat) (detail : String)
  | exn (msg : String)
deriving DecidableEq

/-- Python `str(e)`: Starlette's `HTTPException.__str__` renders
`f"{status_code}: {detail}"`; a plain exception renders its message. -/
def pyStr : PyExn → String
  | .httpExn c d => toString c ++ ": " ++ d
  | .exn m => m

/-- The HTTP error a handler surfaces to the caller (status plus detail). -/
structure HttpError where
  status : Nat
  detail : String
deriving DecidableEq

/-- Status code of a handler outcome, if it is an error. -/
def errStatus {α : Type} : Except HttpError α → Option Nat
  | .error e => some e.status
  | .ok _ => none

/-- Response body of the `/chat` endpoint (`ChatResponse` model). -/
structure ChatResponse where
  response : String
  sources : List String
deriving DecidableEq

/-- Response body of the `/upload` endpoint (`main.py` lines 289-294). -/
structure UploadResponse where
  message : String
  doc_id : String
  filename : String
  chunks : Nat
deriving DecidableEq

/-- External calls the chat handler can issue, recorded for the claims about
which steps run (retrieval, cross-encoder reranking, LLM generation). -/
inductive ChatEvent where
  | retrievalCall
  | rerankCall
  | llmCall
deriving DecidableEq

/-- Python `str.strip()` yields the empty string exactly when every
character is whitespace; `not query.strip()` is this test. -/
def isBlank (s : String) : Bool :=
  s.toList.all (fun c => c.isWhitespace)

/-- An apostrophe character, spliced into string constants taken verbatim
from the source. -/
def apos : String := String.singleton (Char.ofNat 39)

/-- The fixed response returned when retrieval finds nothing
(`main.py` lines 331-333). -/
def noDocsMsg : String :=
  "I couldn" ++ apos ++ "t find any relevant information in your uploaded documents. Please upload documents first."

/-- The initial ANN candidate count: `k=12` at `main.py` line 326. -/
def chatInitialK : Nat := 12

/-- The final selection count after reranking: `[:5]` at `main.py` line 342. -/
def chatFinalK : Nat := 5

/-- Python `list.sort(key=lambda x: x[1], reverse=True)` insertion step: the
new element goes after every element whose key is greater than or equal to
its own (so equal keys keep their arrival order) and before the first
strictly smaller one. -/
def insertDesc {α : Type} (x : α × Int) : List (α × Int) → List (α × Int)
  | [] => [x]
  | y :: ys => if x.2 ≤ y.2 then y :: insertDesc x ys else x :: y :: ys

/-- Tail of the stable descending sort: fold the remaining input, in order,
into the already-sorted accumulator. -/
def pySortAux {α : Type} : List (α × Int) → List (α × Int) → List (α × Int)
  | acc, [] => acc
  | acc, x :: xs => pySortAux (insertDesc x acc) xs

/-- Stable sort, descending by the second component — the semantics of
`doc_score_pairs.sort(key=lambda x: x[1], reverse=True)` at `main.py`
line 341 (CPython's sort is stable, and `reverse=True` preserves the
original order of equal keys).  Scores are modelled in an arbitrary linear
order (`Int`); the handler only compares them, never computes with them. -/
def pySortDesc {α : Type} (l : List (α × Int)) : List (α × Int) :=
  pySortAux [] l

/-- The filter constructed by `chat` for a given owner (`main.py` 314-321). -/
def userFilter (user_id : String) : OwnerFilter :=
  { must_user_id := user_id }

/-- `vector_store.similarity_search(query, k, filter)` over the modelled
index: Qdrant restricts the search to records satisfying the filter
(server-side, before ranking), ranks the survivors by similarity to the
query, descending, and returns at most `k` of them.  `sim` is the
embedding-cosine similarity oracle. -/
def similaritySearch (sim : String → String → Int) (index : VectorIndex)
    (query : String) (k : Nat) (f : OwnerFilter) : List VecRecord :=
  (((pySortDesc ((index.filter (matchesFilter f)).map
      (fun r => (r, sim query r.content)))).map Prod.fst).take k)

/-- The retrieval step of `chat` (`main.py` lines 324-328): a similarity
search with `k = 12` and the mandatory owner filter. -/
def chatRetrieve (sim : String → String → Int) (index : VectorIndex)
    (query : String) (user_id : String) : List VecRecord :=
  similaritySearch sim index query chatInitialK (userFilter user_id)

/-- One rendered context passage (`main.py` line 348):
`f"[Source {i}: {filename}]\n{doc.page_content}"`.  In this model every
record carries a filename, so `metadata.get("filename", "Unknown")` is the
filename itself. -/
def sourceTag (i : Nat) (d : VecRecord) : String :=
  "[Source " ++ toString i ++ ": " ++ d.payload.filename ++ "]\n" ++ d.content

/-- The `context_parts` loop (`main.py` lines 345-348):
`for i, doc in enumerate(reranked_docs, 1)` appending one tag per passage. -/
def contextPartsFrom : Nat → List VecRecord → List String
  | _, [] => []
  | i, d :: ds => sourceTag i d :: contextPartsFrom (i + 1) ds

/-- The fixed delimiter joined between passages (`main.py` line 350). -/
def contextDelim : String := "\n\n---\n\n"

/-- `context = "\n\n---\n\n".join(context_parts)` (`main.py` line 350). -/
def buildContext (docs : List VecRecord) : String :=
  String.intercalate contextDelim (contextPartsFrom 1 docs)

/-- The chain-of-thought prompt template (`main.py` lines 353-367),
rendered with the assembled context and the raw query. -/
def buildPrompt (context query : String) : String :=
  "You are a helpful assistant analyzing documents to answer questions accurately.\n\nContext from relevant documents:\n"
    ++ context
    ++ "\n\nQuestion: " ++ query
    ++ "\n\nInstructions:\n1. First, identify which parts of the context are relevant to the question\n2. Think through the answer step by step\n3. Provide a clear, accurate answer based on the context\n4. If the context doesn"
    ++ apos
    ++ "t contain enough information, say so clearly\n5. Cite which source(s) you used in your answer\n\nAnswer:"

/-- CPython small-set table size: a set holding at most four elements keeps
its initial table of eight slots (no resize); this model covers that range,
which is all the handler needs (at most `chatFinalK = 5` passages, and the
claims are settled on at most four distinct filenames). -/
def pySetTableSize : Nat := 8

/-- CPython set open-addressing probe: try slot `i`; an empty slot receives
the element, an equal occupant means it is already present, otherwise
rehash with `i = (5*i + perturb + 1) mod table`, `perturb = perturb >> 5`.
Fuel bounds the loop; it is never exhausted at the table sizes used here. -/
def setProbe (x : String) : Nat → Nat → Nat → List (Option String) → List (Option String)
  | 0, _, _, t => t
  | fuel + 1, i, perturb, t =>
    match t.get? i with
    | none => t
    | some none => t.set i (some x)
    | some (some y) =>
      if y = x then t
      else setProbe x fuel ((5 * i + perturb + 1) % pySetTableSize) (perturb / 32) t

/-- Insert one string into the modelled CPython set table; `h` is the
process-wide randomized string hash (seeded by PYTHONHASHSEED). -/
def pySetInsert (h : String → Nat) (t : List (Option String)) (x : String) :
    List (Option String) :=
  setProbe x (2 * pySetTableSize) (h x % pySetTableSize) (h x) t

/-- Python `list(set(xs))` for up to four distinct strings: build the hash
table by inserting in list order, then iterate the slots in ascending
index order.  The resulting order depends on the hash seed `h`, not on the
first-seen order of `xs`. -/
def pySetList (h : String → Nat) (xs : List String) : List String :=
  (xs.foldl (pySetInsert h) (List.replicate pySetTableSize none)).filterMap id

/-- `sources = list(set([doc.metadata.get("filename", "Unknown") for doc in
reranked_docs]))` (`main.py` line 373). -/
def sourcesOfCode (h : String → Nat) (docs : List VecRecord) : List String :=
  pySetList h (docs.map (fun d => d.payload.filename))

/-- Helper for the order-preserving deduplication demanded by the spec. -/
def firstSeenAux : List String → List String → List String
  | _, [] => []
  | seen, x :: xs =>
    if x ∈ seen then firstSeenAux seen xs else x :: firstSeenAux (x :: seen) xs

/-- Modelled from the spec: the order-preserving (first-seen)
deduplication that section 4.6 and the design notes demand in place of the
unordered-set deduplication the code performs; defined only to be compared
against `sourcesOfCode`. -/
def specFirstSeenDedup (xs : List String) : List String :=
  firstSeenAux [] xs

/-- The rerank step of `chat` (`main.py` lines 336-342): score every
(query, passage) pair with the cross-encoder oracle, zip docs with scores,
stable-sort descending by score, truncate to `chatFinalK`, keep the docs. -/
def rerank (score : String → String → Int) (query : String)
    (docs : List VecRecord) : List VecRecord :=
  let pairs := docs.map (fun d => (query, d.content))
  let scores := pairs.map (fun p => score p.1 p.2)
  let doc_score_pairs := docs.zip scores
  ((pySortDesc doc_score_pairs).take chatFinalK).map Prod.fst

/-- The external calls the chat handler makes, as oracles: the filtered
index search, the cross-encoder batch prediction, the LLM generation, and
the run's randomized string hash (used by `list(set(...))`). -/
structure ChatOracles where
  search : String → OwnerFilter → Except PyExn (List VecRecord)
  predict : List (String × String) → Except PyExn (List Int)
  llm : String → Except PyExn String
  strHash : String → Nat

/-- Body of the `chat` handler (`main.py` lines 306-375), inside the `try`:
validation, filtered retrieval, empty-result short-circuit, reranking,
context assembly, generation, source extraction.  Returns the outcome
together with the list of external calls issued. -/
def chatBody (o : ChatOracles) (user_id query : String) :
    Except PyExn ChatResponse × List ChatEvent :=
  if isBlank query then
    (.error (.httpExn 400 "Query cannot be empty"), [])
  else
    match o.search query (userFilter user_id) with
    | .error e => (.error e, [.retrievalCall])
    | .ok initial_docs =>
      if initial_docs.isEmpty then
        (.ok { response := noDocsMsg, sources := [] }, [.retrievalCall])
      else
        let pairs := initial_docs.map (fun d => (query, d.content))
        match o.predict pairs with
        | .error e => (.error e, [.retrievalCall, .rerankCall])
        | .ok scores =>
          let doc_score_pairs := initial_docs.zip scores
          let reranked_docs := ((pySortDesc doc_score_pairs).take chatFinalK).map Prod.fst
          let context := buildContext reranked_docs
          match o.llm (buildPrompt context query) with
          | .error e => (.error e, [.retrievalCall, .rerankCall, .llmCall])
          | .ok resp =>
            (.ok { response := resp, sources := sourcesOfCode o.strHash reranked_docs },
             [.retrievalCall, .rerankCall, .llmCall])

/-- The `chat` handler with its blanket `except Exception` clause
(`main.py` lines 377-378): any exception raised in the body — including the
in-body `HTTPException(400, ...)` — is re-raised as
`HTTPException(500, f"Error processing chat: {str(e)}")`. -/
def chat (o : ChatOracles) (user_id query : String) :
    Except HttpError ChatResponse × List ChatEvent :=
  match chatBody o user_id query with
  | (.ok r, ev) => (.ok r, ev)
  | (.error e, ev) =>
    (.error { status := 500, detail := "Error processing chat: " ++ pyStr e }, ev)

/-- The chat oracles as actually wired in `main.py`: retrieval is the
Qdrant filtered similarity search with `k = 12` over the current index,
prediction maps the cross-encoder score over the batch, and `llm` and
`strHash` stand for the Ollama call and the run's string hash. -/
def qdrantOracles (sim ce : String → String → Int) (h : String → Nat)
    (llm : String → Except PyExn String) (index : VectorIndex) : ChatOracles :=
  { search := fun q f => .ok (similaritySearch sim index q chatInitialK f)
  , predict := fun pairs => .ok (pairs.map (fun p => ce p.1 p.2))
  , llm := llm
  , strHash := h }

/-- The supported upload extensions (`main.py` line 244). -/
def supportedExts : List String :=
  [".pdf", ".docx", ".pptx", ".xlsx", ".html", ".png", ".jpg", ".jpeg", ".tiff"]

/-- `file.filename.lower().endswith(supported_extensions)`: the lowercased
filename ends with one of the supported extensions (lowercasing is applied
characterwise, as Python does for ASCII filenames). -/
def validExt (filename : String) : Bool :=
  supportedExts.any (fun e => e.toList.isSuffixOf (filename.toList.map Char.toLower))

/-- Detail of the unsupported-file-type rejection (`main.py` line 248). -/
def unsupportedDetail : String :=
  "Unsupported file type. Supported: " ++ String.intercalate ", " supportedExts

/-- Success message of the upload response (`main.py` line 290). -/
def uploadResponseMsg : String := "Document uploaded and processed successfully"

/-- The stored-file path `uploads/{user_id}/{doc_id}_{filename}`
(`main.py` lines 255-257). -/
def uploadPath (user_id doc_id filename : String) : String :=
  "uploads/" ++ user_id ++ "/" ++ doc_id ++ "_" ++ filename

/-- Outcomes of the collaborators the upload handler calls: Docling text
extraction, the text splitter, and whether the `add_texts` index write and
the `create_document` catalog insert succeed on this request. -/
structure UploadEnv where
  extract : String → Except PyExn String
  split : String → List String
  indexWrite : Except PyExn Unit
  catalogWrite : Except PyExn Unit

/-- Body of the `upload_document` handler (`main.py` lines 242-294), inside
the `try`: extension validation, file save, extraction, empty-text check,
chunking, tagged index write, catalog insert.  Returns the outcome and the
application state after whatever side effects completed — the code performs
no rollback on failure. -/
def uploadBody (env : UploadEnv) (st : AppState)
    (user_id doc_id filename : String) :
    Except PyExn UploadResponse × AppState :=
  if validExt filename then
    let file_path := uploadPath user_id doc_id filename
    let st1 : AppState := { st with files := st.files ++ [file_path] }
    match env.extract file_path with
    | .error e => (.error e, st1)
    | .ok text =>
      if isBlank text then
        (.error (.httpExn 400 "No text could be extracted from the document"), st1)
      else
        let chunks := env.split text
        let metadatas := (List.range chunks.length).map (fun i =>
          { user_id := user_id, doc_id := doc_id, filename := filename, chunk_id := i : Payload })
        match env.indexWrite with
        | .error e => (.error e, st1)
        | .ok _ =>
          let newRecs := (chunks.zip metadatas).map
            (fun p => { payload := p.2, content := p.1 : VecRecord })
          let st2 : AppState := { st1 with index := st1.index ++ newRecs }
          match env.catalogWrite with
          | .error e => (.error e, st2)
          | .ok _ =>
            let row : CatalogRow :=
              { id := doc_id, user_id := user_id, filename := filename
              , file_path := file_path, chunks := chunks.length }
            (.ok { message := uploadResponseMsg, doc_id := doc_id
                 , filename := filename, chunks := chunks.length }
            , { st2 with catalog := st2.catalog ++ [row] })
  else
    (.error (.httpExn 400 unsupportedDetail), st)

/-- The `upload_document` handler with its blanket `except Exception`
clause (`main.py` lines 296-297): any exception in the body becomes
`HTTPException(500, f"Error processing document: {str(e)}")`. -/
def upload (env : UploadEnv) (st : AppState)
    (user_id doc_id filename : String) :
    Except HttpError UploadResponse × AppState :=
  match uploadBody env st user_id doc_id filename with
  | (.ok r, st1) => (.ok r, st1)
  | (.error e, st1) =>
    (.error { status := 500, detail := "Error processing document: " ++ pyStr e }, st1)

/-- `database.delete_document` (`database.py` lines 137-148): delete the
rows matching `(doc_id, user_id)` and report whether any row was deleted. -/
def db_delete_document (catalog : List CatalogRow) (doc_id user_id : String) :
    Bool × List CatalogRow :=
  let remaining := catalog.filter
    (fun r => Bool.not (r.id == doc_id && r.user_id == user_id))
  (decide (remaining.length < catalog.length), remaining)

/-- The `delete_document` handler (`main.py` lines 396-424): ownership
check via `get_document`, then — inside the `try` — unlink the stored file
if present and delete the catalog row.  The source deliberately performs no
vector-store deletion (its comment at lines 413-415 calls this a
limitation), so the index component of the state is returned untouched. -/
def delete_document (st : AppState) (doc_id user_id : String) :
    Except HttpError AppState :=
  match st.catalog.find? (fun r => r.id == doc_id && r.user_id == user_id) with
  | none => .error { status := 404, detail := "Document not found" }
  | some doc =>
    let files1 := st.files.filter (fun p => Bool.not (p == doc.file_path))
    match db_delete_document st.catalog doc_id user_id with
    | (true, catalog1) => .ok { st with files := files1, catalog := catalog1 }
    | (false, _) =>
      .error { status := 500
             , detail := "Error deleting document: " ++ pyStr (.httpExn 404 "Could not delete document") }

/-! Concrete instances used by witnesses and counterexamples. -/

/-- A trivial similarity oracle. -/
def simZero : String → String → Int := fun _ _ => 0

/-- A trivial string-hash oracle. -/
def hashZero : String → Nat := fun _ => 0

/-- A trivially succeeding LLM oracle. -/
def llmOk : String → Except PyExn String := fun _ => .ok "ok"

/-- Trivial chat oracles used to evaluate the handler on concrete inputs. -/
def oracles0 : ChatOracles :=
  { search := fun _ _ => .ok []
  , predict := fun pairs => .ok (pairs.map (fun _ => 0))
  , llm := llmOk
  , strHash := hashZero }

/-- A vector record of owner alice, document d1, used by the deletion
counterexample. -/
def recC2 : VecRecord :=
  { payload := { user_id := "alice", doc_id := "d1", filename := "f.pdf", chunk_id := 0 }
  , content := "hello" }

/-- State holding exactly document d1 of owner alice: one indexed chunk,
one catalog row, one stored file. -/
def stC2 : AppState :=
  { index := [recC2]
  , catalog := [{ id := "d1", user_id := "alice", filename := "f.pdf"
                , file_path := "uploads/alice/d1_f.pdf", chunks := 1 }]
  , files := ["uploads/alice/d1_f.pdf"] }

/-- The state `delete_document stC2 "d1" "alice"` actually produces:
catalog and file gone, vector record still present. -/
def stC2after : AppState := { index := [recC2], catalog := [], files := [] }

/-- The empty application state. -/
def st0 : AppState := { index := [], catalog := [], files := [] }

/-- Upload environment whose catalog insert fails after a successful index
write: extraction yields one chunk, `add_texts` succeeds, the SQLite
insert raises. -/
def envC3 : UploadEnv :=
  { extract := fun _ => .ok "hello world"
  , split := fun t => [t]
  , indexWrite := .ok ()
  , catalogWrite := .error (.exn "db locked") }

/-- Upload environment in which every step succeeds. -/
def envOk : UploadEnv :=
  { extract := fun _ => .ok "hello world"
  , split := fun t => [t]
  , indexWrite := .ok ()
  , catalogWrite := .ok () }

/-- A passage from file b.pdf (listed first in the reranked selection). -/
def docB7 : VecRecord :=
  { payload := { user_id := "alice", doc_id := "d2", filename := "b.pdf", chunk_id := 0 }
  , content := "bravo" }

/-- A passage from file a.pdf (listed second in the reranked selection). -/
def docA7 : VecRecord :=
  { payload := { user_id := "alice", doc_id := "d3", filename := "a.pdf", chunk_id := 0 }
  , content := "alpha" }

/-- A string-hash seed under which a.pdf lands in slot 0 and b.pdf in
slot 1 of the set table. -/
def hashSeed1 (s : String) : Nat :=
  if s = "a.pdf" then 0 else if s = "b.pdf" then 1 else 2

/-- A string-hash seed under which b.pdf lands in slot 0 and a.pdf in
slot 1 of the set table. -/
def hashSeed2 (s : String) : Nat :=
  if s = "a.pdf" then 1 else if s = "b.pdf" then 0 else 2

/-- The vector records `add_texts(chunks, metadatas)` writes for one
document: one record per chunk, tagged with owner id, document id,
filename and 0-based chunk index (`main.py` lines 273-284). -/
def ingestRecs (user_id doc_id filename : String) (chunks : List String) :
    List VecRecord :=
  (chunks.zip ((List.range chunks.length).map (fun i =>
    { user_id := user_id, doc_id := doc_id, filename := filename
    , chunk_id := i : Payload }))).map
    (fun p => { payload := p.2, content := p.1 : VecRecord })

/-- The catalog row `create_document` inserts for one document
(`main.py` line 287, `database.py` lines 97-106). -/
def ingestRow (user_id doc_id filename : String) (n : Nat) : CatalogRow :=
  { id := doc_id, user_id := user_id, filename := filename
  , file_path := uploadPath user_id doc_id filename, chunks := n }

/-! Properties of the stable descending sort. -/

theorem insertDesc_perm {α : Type} (x : α × Int) (l : List (α × Int)) :
    (insertDesc x l).Perm (x :: l) := by
  induction l with
  | nil => simp [insertDesc]
  | cons y ys ih =>
    by_cases h : x.2 ≤ y.2
    · simp only [insertDesc, if_pos h]
      exact (ih.cons y).trans (List.Perm.swap x y ys)
    · simp [insertDesc, if_neg h]

theorem pySortAux_perm {α : Type} (l : List (α × Int)) :
    ∀ acc : List (α × Int), (pySortAux acc l).Perm (acc ++ l) := by
  induction l with
  | nil => intro acc; simp [pySortAux]
  | cons x xs ih =>
    intro acc
    simp only [pySortAux]
    refine (ih (insertDesc x acc)).trans ?_
    refine ((insertDesc_perm x acc).append_right xs).trans ?_
    exact List.perm_middle.symm

theorem pySortDesc_perm {α : Type} (l : List (α × Int)) :
    (pySortDesc l).Perm l := by
  simpa [pySortDesc] using pySortAux_perm l []

theorem insertDesc_sorted {α : Type} (x : α × Int) (l : List (α × Int))
    (hl : l.Pairwise (fun a b => b.2 ≤ a.2)) :
    (insertDesc x l).Pairwise (fun a b => b.2 ≤ a.2) := by
  induction l with
  | nil => simp [insertDesc]
  | cons y ys ih =>
    rcases List.pairwise_cons.mp hl with ⟨hy, hys⟩
    by_cases h : x.2 ≤ y.2
    · simp only [insertDesc, if_pos h]
      refine List.pairwise_cons.mpr ⟨?_, ih hys⟩
      intro z hz
      rcases List.mem_cons.mp ((insertDesc_perm x ys).mem_iff.mp hz) with rfl | hzys
      · exact h
      · exact hy z hzys
    · simp only [insertDesc, if_neg h]
      have hyx : y.2 ≤ x.2 := le_of_not_le h
      refine List.pairwise_cons.mpr ⟨?_, hl⟩
      intro z hz
      rcases List.mem_cons.mp hz with rfl | hzys
      · exact hyx
      · exact le_trans (hy z hzys) hyx

theorem pySortAux_sorted {α : Type} (l : List (α × Int)) :
    ∀ acc : List (α × Int), acc.Pairwise (fun a b => b.2 ≤ a.2) →
      (pySortAux acc l).Pairwise (fun a b => b.2 ≤ a.2) := by
  induction l with
  | nil => intro acc hacc; simpa [pySortAux] using hacc
  | cons x xs ih =>
    intro acc hacc
    exact ih (insertDesc x acc) (insertDesc_sorted x acc hacc)

theorem pySortDesc_sorted {α : Type} (l : List (α × Int)) :
    (pySortDesc l).Pairwise (fun a b => b.2 ≤ a.2) :=
  pySortAux_sorted l [] List.Pairwise.nil

theorem insertDesc_filter {α : Type} (s : Int) (x : α × Int) (l : List (α × Int))
    (hl : l.Pairwise (fun a b => b.2 ≤ a.2)) :
    (insertDesc x l).filter (fun p => p.2 == s) =
      if x.2 == s then l.filter (fun p => p.2 == s) ++ [x]
      else l.filter (fun p => p.2 == s) := by
  induction l with
  | nil =>
    by_cases hx : x.2 == s <;> simp [insertDesc, List.filter_cons, hx]
  | cons y ys ih =>
    rcases List.pairwise_cons.mp hl with ⟨hy, hys⟩
    by_cases h : x.2 ≤ y.2
    · simp only [insertDesc, if_pos h, List.filter_cons]
      rw [ih hys]
      by_cases hx : x.2 == s <;> by_cases hyv : y.2 == s <;> simp [hx, hyv]
    · simp only [insertDesc, if_neg h, List.filter_cons]
      by_cases hx : x.2 == s
      · have hxs : x.2 = s := by simpa using hx
        have hyx : y.2 < x.2 := lt_of_not_le h
        have hnil : List.filter (fun p => p.2 == s) (y :: ys) = [] := by
          rw [List.filter_eq_nil_iff]
          intro z hz
          rcases List.mem_cons.mp hz with rfl | hzys
          · simp only [beq_iff_eq]; omega
          · have hzy := hy z hzys
            simp only [beq_iff_eq]; omega
        rw [List.filter_cons] at hnil
        simp only [beq_iff_eq] at hnil
        simp [hx, hnil]
      · simp [hx]

theorem pySortAux_filter {α : Type} (s : Int) (l : List (α × Int)) :
    ∀ acc : List (α × Int), acc.Pairwise (fun a b => b.2 ≤ a.2) →
      (pySortAux acc l).filter (fun p => p.2 == s) =
        acc.filter (fun p => p.2 == s) ++ l.filter (fun p => p.2 == s) := by
  induction l with
  | nil => intro acc _; simp [pySortAux]
  | cons x xs ih =>
    intro acc hacc
    simp only [pySortAux]
    rw [ih (insertDesc x acc) (insertDesc_sorted x acc hacc),
        insertDesc_filter s x acc hacc, List.filter_cons]
    by_cases hx : x.2 == s <;> simp [hx]

theorem pySortDesc_stable {α : Type} (s : Int) (l : List (α × Int)) :
    (pySortDesc l).filter (fun p => p.2 == s) = l.filter (fun p => p.2 == s) := by
  simpa [pySortDesc] using pySortAux_filter s l [] List.Pairwise.nil

/-! Properties of the filtered similarity search. -/

theorem matches_of_mem_similaritySearch
    {sim : String → String → Int} {index : VectorIndex} {query : String}
    {k : Nat} {f : OwnerFilter} {r : VecRecord}
    (hr : r ∈ similaritySearch sim index query k f) :
    matchesFilter f r = true := by
  unfold similaritySearch at hr
  have h1 := List.take_subset _ _ hr
  rcases List.mem_map.mp h1 with ⟨p, hp, rfl⟩
  have h2 : p ∈ (index.filter (matchesFilter f)).map
      (fun r => (r, sim query r.content)) :=
    (pySortDesc_perm _).mem_iff.mp hp
  rcases List.mem_map.mp h2 with ⟨r0, hr0, hpr⟩
  cases hpr
  exact (List.mem_filter.mp hr0).2

theorem length_similaritySearch
    (sim : String → String → Int) (index : VectorIndex) (query : String)
    (k : Nat) (f : OwnerFilter) :
    (similaritySearch sim index query k f).length
      = min k (index.countP (matchesFilter f)) := by
  unfold similaritySearch
  rw [List.length_take, List.length_map, (pySortDesc_perm _).length_eq,
      List.length_map, List.countP_eq_length_filter]

/-! Helper lemmas for reranking and context assembly. -/

theorem snd_of_mem_zip_map {α β : Type} (f : α → β) :
    ∀ (l : List α) (p : α × β), p ∈ l.zip (l.map f) → p.2 = f p.1 := by
  intro l
  induction l with
  | nil => intro p hp; simp at hp
  | cons a l ih =>
    intro p hp
    simp only [List.map_cons, List.zip_cons_cons] at hp
    rcases List.mem_cons.mp hp with rfl | hp'
    · rfl
    · exact ih p hp'

theorem rerank_eq (score : String → String → Int) (query : String)
    (docs : List VecRecord) :
    rerank score query docs
      = ((pySortDesc (docs.zip (docs.map (fun d => score query d.content)))).take
          chatFinalK).map Prod.fst := by
  simp only [rerank, List.map_map]
  rfl

theorem contextPartsFrom_length :
    ∀ (docs : List VecRecord) (n : Nat),
      (contextPartsFrom n docs).length = docs.length := by
  intro docs
  induction docs with
  | nil => intro n; rfl
  | cons d ds ih => intro n; simp [contextPartsFrom, ih]

theorem contextPartsFrom_getElem? :
    ∀ (docs : List VecRecord) (n j : Nat),
      (contextPartsFrom n docs)[j]? = docs[j]?.map (fun d => sourceTag (n + j) d) := by
  intro docs
  induction docs with
  | nil => intro n j; simp [contextPartsFrom]
  | cons d ds ih =>
    intro n j
    cases j with
    | zero => simp [contextPartsFrom]
    | succ j =>
      simp only [contextPartsFrom, List.getElem?_cons_succ, ih (n + 1) j]
      have : n + 1 + j = n + (j + 1) := by omega
      rw [this]

theorem contextPartsFrom_enumFrom :
    ∀ (docs : List VecRecord) (n : Nat),
      contextPartsFrom (n + 1) docs
        = (docs.enumFrom n).map (fun p => sourceTag (p.1 + 1) p.2) := by
  intro docs
  induction docs with
  | nil => intro n; rfl
  | cons d ds ih =>
    intro n
    simp only [contextPartsFrom, List.enumFrom_cons, List.map_cons, ih (n + 1)]

/-- C1: tenant isolation.  For distinct owners A and B and any query, any
similarity oracle and any index state, every record returned by the
retrieval step of `chat` invoked for A carries payload owner id A and never
B's; when A has no records in the index the result is empty (no fallback to
other owners' content); and the owner filter acts structurally inside the
index query — the result size is exactly `min k` (number of A's records),
which post-hoc filtering of an unfiltered top-k could not guarantee.  The
last conjunct records that the chat pipeline's search call is exactly this
filtered search. -/
theorem c1_tenant_isolation (sim ce : String → String → Int) (h : String → Nat)
    (llm : String → Except PyExn String) (index : VectorIndex)
    (query A B : String) (hAB : A ≠ B) :
    (∀ r ∈ chatRetrieve sim index query A, r.payload.user_id = A)
  ∧ (∀ r ∈ chatRetrieve sim index query A, r.payload.user_id ≠ B)
  ∧ ((∀ r ∈ index, r.payload.user_id ≠ A) → chatRetrieve sim index query A = [])
  ∧ (chatRetrieve sim index query A).length
      = min chatInitialK (index.countP (fun r => r.payload.user_id == A))
  ∧ (qdrantOracles sim ce h llm index).search query (userFilter A)
      = .ok (chatRetrieve sim index query A) := by
  have howner : ∀ r ∈ chatRetrieve sim index query A, r.payload.user_id = A := by
    intro r hr
    have hr2 : r ∈ similaritySearch sim index query chatInitialK (userFilter A) := hr
    have := matches_of_mem_similaritySearch hr2
    simpa [matchesFilter, userFilter] using this
  refine ⟨howner, ?_, ?_, ?_, rfl⟩
  · intro r hr
    rw [howner r hr]
    exact hAB
  · intro hnone
    have hfil : index.filter (matchesFilter (userFilter A)) = [] := by
      rw [List.filter_eq_nil_iff]
      intro r hr
      simp only [matchesFilter, userFilter, beq_iff_eq]
      exact hnone r hr
    unfold chatRetrieve similaritySearch
    rw [hfil]
    rfl
  · have := length_similaritySearch sim index query chatInitialK (userFilter A)
    have hfun : matchesFilter (userFilter A) = (fun r => r.payload.user_id == A) := rfl
    rw [hfun] at this
    exact this

/-- C1 witness: the isolation theorem instantiated for owners alice and bob
on the concrete two-owner state `stC2`, a similarity oracle and a query. -/
theorem c1_witness :
    ("alice" : String) ≠ "bob"
  ∧ ((∀ r ∈ chatRetrieve simZero stC2.index "invoice terms" "alice",
        r.payload.user_id = "alice")
   ∧ (∀ r ∈ chatRetrieve simZero stC2.index "invoice terms" "alice",
        r.payload.user_id ≠ "bob")
   ∧ ((∀ r ∈ stC2.index, r.payload.user_id ≠ "alice") →
        chatRetrieve simZero stC2.index "invoice terms" "alice" = [])
   ∧ (chatRetrieve simZero stC2.index "invoice terms" "alice").length
       = min chatInitialK (stC2.index.countP (fun r => r.payload.user_id == "alice"))
   ∧ (qdrantOracles simZero simZero hashZero llmOk stC2.index).search "invoice terms"
        (userFilter "alice")
       = .ok (chatRetrieve simZero stC2.index "invoice terms" "alice")) :=
  ⟨by decide,
   c1_tenant_isolation simZero simZero hashZero llmOk stC2.index
     "invoice terms" "alice" "bob" (by decide)⟩

/-- C2: deletion completeness fails in the code.  On the concrete state
holding exactly alice's document d1 (one indexed chunk, one catalog row,
one stored file), `delete_document` returns success, the catalog row and
the file are gone — but the vector record tagged with d1 is still in the
index, and retrieval for alice still returns it.  The handler performs no
vector-store deletion (its own comment, `main.py` lines 413-415, calls
this a limitation). -/
theorem c2_stale_vectors :
    delete_document stC2 "d1" "alice" = .ok stC2after
  ∧ stC2after.catalog.filter (fun r => r.id == "d1") = []
  ∧ stC2after.files = []
  ∧ recC2 ∈ stC2after.index
  ∧ recC2.payload.doc_id = "d1"
  ∧ recC2.payload.user_id = "alice"
  ∧ chatRetrieve simZero stC2after.index "any query" "alice" = [recC2] :=
  ⟨by decide, by decide, by decide, by decide, by decide, by decide, by decide⟩

/-- C3: ingest atomicity fails in the code.  With an upload whose catalog
insert raises after a successful vector-index write (extraction produced
one non-empty chunk), the handler returns the wrapped 500 error, the
catalog indeed has no row for the attempted document id — but one vector
record tagged with that id is left in the index, with no rollback. -/
theorem c3_orphaned_vectors :
    (upload envC3 st0 "alice" "d1" "a.pdf").1
      = .error { status := 500, detail := "Error processing document: db locked" }
  ∧ (upload envC3 st0 "alice" "d1" "a.pdf").2.catalog = []
  ∧ (upload envC3 st0 "alice" "d1" "a.pdf").2.index.countP
      (fun r => r.payload.doc_id == "d1") = 1
  ∧ (upload envC3 st0 "alice" "d1" "a.pdf").2.index ≠ [] :=
  ⟨by decide, by decide, by decide, by decide⟩

/-- C7: the source list is not first-seen-ordered.  The code builds
`list(set(filenames))`; under the CPython set model, with selected passages
from b.pdf then a.pdf, one string-hash seed yields the order
[a.pdf, b.pdf] and another yields [b.pdf, a.pdf] — so the order depends on
the run's hash seed and differs from the spec's first-seen order
[b.pdf, a.pdf], even though the multiset of distinct filenames is right. -/
theorem c7_set_iteration_order :
    sourcesOfCode hashSeed1 [docB7, docA7] = ["a.pdf", "b.pdf"]
  ∧ sourcesOfCode hashSeed2 [docB7, docA7] = ["b.pdf", "a.pdf"]
  ∧ specFirstSeenDedup ([docB7, docA7].map (fun d => d.payload.filename))
      = ["b.pdf", "a.pdf"]
  ∧ (sourcesOfCode hashSeed1 [docB7, docA7]).Perm
      (specFirstSeenDedup ([docB7, docA7].map (fun d => d.payload.filename)))
  ∧ sourcesOfCode hashSeed1 [docB7, docA7]
      ≠ specFirstSeenDedup ([docB7, docA7].map (fun d => d.payload.filename))
  ∧ sourcesOfCode hashSeed1 [docB7, docA7] ≠ sourcesOfCode hashSeed2 [docB7, docA7] :=
  ⟨by decide, by decide, by decide, by decide, by decide, by decide⟩

/-- C4 counterexample: the claim says an empty/whitespace query is rejected
with a ValidationError (the HTTP 400 the handler raises); on the concrete
blank query the caller instead observes HTTP 500 with the 400 message
wrapped into the detail — the in-handler `HTTPException(400)` is swallowed
by the blanket `except` clause.  No retrieval or generation call is made. -/
theorem c4_counterexample :
    (chat oracles0 "alice" "   ").1
      = .error { status := 500
               , detail := "Error processing chat: 400: Query cannot be empty" }
  ∧ errStatus (chat oracles0 "alice" "   ").1 ≠ some 400
  ∧ (chat oracles0 "alice" "   ").2 = [] :=
  ⟨by decide, by decide, by decide⟩

/-- C4 (amended): every chat request whose query is empty or whitespace-only
is rejected before any retrieval or generation call is issued (the event
list is empty), but the rejection surfaces to the caller as HTTP 500
wrapping the 400 validation message, not as a distinguishable
ValidationError/400. -/
theorem c4_amended_rejection (o : ChatOracles) (user_id query : String)
    (hq : isBlank query = true) :
    chat o user_id query
      = (.error { status := 500
                , detail := "Error processing chat: 400: Query cannot be empty" }, []) := by
  have hb : chatBody o user_id query
      = (.error (.httpExn 400 "Query cannot be empty"), []) := by
    unfold chatBody
    rw [hq]
    rfl
  unfold chat
  rw [hb]
  decide

/-- C4 witness: the amended theorem applied to a single-space query. -/
theorem c4_witness :
    isBlank " " = true
  ∧ chat oracles0 "user1" " "
      = (.error { status := 500
                , detail := "Error processing chat: 400: Query cannot be empty" }, []) :=
  ⟨by decide, c4_amended_rejection oracles0 "user1" " " (by decide)⟩

/-- C5: when the filtered retrieval of a non-blank query comes back empty,
the chat pipeline returns the fixed no-documents response with an empty
source list, raises no error, and issues neither the cross-encoder rerank
call nor the LLM generation call (the event list stops at retrieval). -/
theorem c5_no_docs_short_circuit (sim ce : String → String → Int)
    (h : String → Nat) (llm : String → Except PyExn String)
    (index : VectorIndex) (user_id query : String)
    (hq : isBlank query = false)
    (hempty : chatRetrieve sim index query user_id = []) :
    chat (qdrantOracles sim ce h llm index) user_id query
      = (.ok { response := noDocsMsg, sources := [] }, [.retrievalCall]) := by
  have hs : (qdrantOracles sim ce h llm index).search query (userFilter user_id)
      = Except.ok ([] : List VecRecord) := congrArg Except.ok hempty
  have hb : chatBody (qdrantOracles sim ce h llm index) user_id query
      = (.ok { response := noDocsMsg, sources := [] }, [.retrievalCall]) := by
    unfold chatBody
    rw [hq, hs]
    rfl
  unfold chat
  rw [hb]

/-- C5 witness: an owner with no indexed content asking a real question on
the empty index gets the no-documents response and only a retrieval call. -/
theorem c5_witness :
    isBlank "refund policy" = false
  ∧ chatRetrieve simZero [] "refund policy" "alice" = []
  ∧ chat (qdrantOracles simZero simZero hashZero llmOk []) "alice" "refund policy"
      = (.ok { response := noDocsMsg, sources := [] }, [.retrievalCall]) :=
  ⟨by decide, by decide,
   c5_no_docs_short_circuit simZero simZero hashZero llmOk [] "alice"
     "refund policy" (by decide) (by decide)⟩

/-- C6: the rerank step orders the selected candidates in descending
cross-encoder score; equal scores keep their incoming ANN order (the sort
is stable: filtering the sorted pair list at any score value returns those
pairs in their original order); the result is truncated to the final
selection count `chatFinalK = 5`, which is at most the initial candidate
count `chatInitialK = 12`; and the output depends only on the scores of
the given (query, candidate) pairs, so reranking the identical input twice
yields the identical ordering. -/
theorem c6_rerank_stable_desc (score score2 : String → String → Int)
    (query : String) (docs : List VecRecord) :
    List.Pairwise (fun a b => score query b.content ≤ score query a.content)
      (rerank score query docs)
  ∧ (∀ s : Int,
      (pySortDesc (docs.zip (docs.map (fun d => score query d.content)))).filter
          (fun p => p.2 == s)
        = (docs.zip (docs.map (fun d => score query d.content))).filter
            (fun p => p.2 == s))
  ∧ (rerank score query docs).length = min chatFinalK docs.length
  ∧ chatFinalK = 5 ∧ chatInitialK = 12 ∧ chatFinalK ≤ chatInitialK
  ∧ ((∀ d ∈ docs, score query d.content = score2 query d.content) →
      rerank score query docs = rerank score2 query docs) := by
  refine ⟨?_, ?_, ?_, rfl, rfl, by decide, ?_⟩
  · rw [rerank_eq, List.pairwise_map]
    have htake : (List.take chatFinalK
        (pySortDesc (docs.zip (docs.map (fun d => score query d.content))))).Pairwise
        (fun a b => b.2 ≤ a.2) :=
      List.Pairwise.sublist (List.take_sublist _ _) (pySortDesc_sorted _)
    have hmem : ∀ p ∈ List.take chatFinalK
        (pySortDesc (docs.zip (docs.map (fun d => score query d.content)))),
        p.2 = score query p.1.content := by
      intro p hp
      exact snd_of_mem_zip_map _ docs p
        ((pySortDesc_perm _).mem_iff.mp (List.take_subset _ _ hp))
    refine List.Pairwise.imp_of_mem ?_ htake
    intro a b ha hb hr
    rw [← hmem a ha, ← hmem b hb]
    exact hr
  · intro s
    exact pySortDesc_stable s _
  · rw [rerank_eq, List.length_map, List.length_take, (pySortDesc_perm _).length_eq]
    simp [List.length_zip]
  · intro hagree
    rw [rerank_eq, rerank_eq, List.map_congr_left (fun d hd => hagree d hd)]

/-- C6 witness: the rerank theorem instantiated on a concrete query and a
concrete two-candidate list with the identical scorer on both sides. -/
theorem c6_witness :
    List.Pairwise (fun a b => simZero "q" b.content ≤ simZero "q" a.content)
      (rerank simZero "q" [docB7, docA7])
  ∧ (∀ s : Int,
      (pySortDesc ([docB7, docA7].zip
          ([docB7, docA7].map (fun d => simZero "q" d.content)))).filter
          (fun p => p.2 == s)
        = (([docB7, docA7].zip
            ([docB7, docA7].map (fun d => simZero "q" d.content)))).filter
            (fun p => p.2 == s))
  ∧ (rerank simZero "q" [docB7, docA7]).length = min chatFinalK [docB7, docA7].length
  ∧ chatFinalK = 5 ∧ chatInitialK = 12 ∧ chatFinalK ≤ chatInitialK
  ∧ ((∀ d ∈ [docB7, docA7], simZero "q" d.content = simZero "q" d.content) →
      rerank simZero "q" [docB7, docA7] = rerank simZero "q" [docB7, docA7]) :=
  c6_rerank_stable_desc simZero simZero "q" [docB7, docA7]

/-- C8: context assembly renders each selected passage prefixed with its
1-based source index and originating filename, in the reranked order, and
joins the parts with the fixed delimiter: the assembled context equals the
delimiter-intercalation of the enumerated tags, the parts list is as long
as the passage list, and the j-th part is exactly the tag of the j-th
passage with index j+1 (no re-sorting). -/
theorem c8_context_assembly (docs : List VecRecord) :
    buildContext docs
      = String.intercalate contextDelim
          (docs.enum.map (fun p => sourceTag (p.1 + 1) p.2))
  ∧ (contextPartsFrom 1 docs).length = docs.length
  ∧ (∀ j : Nat, (contextPartsFrom 1 docs)[j]?
      = docs[j]?.map (fun d => sourceTag (j + 1) d)) := by
  refine ⟨?_, contextPartsFrom_length docs 1, ?_⟩
  · have h : contextPartsFrom 1 docs
        = (docs.enumFrom 0).map (fun p => sourceTag (p.1 + 1) p.2) :=
      contextPartsFrom_enumFrom docs 0
    unfold buildContext
    rw [h]
    rfl
  · intro j
    have h := contextPartsFrom_getElem? docs 1 j
    rw [Nat.add_comm 1 j] at h
    exact h

/-- C9: chunk-count invariant.  On a successful upload (valid extension,
extraction succeeds with non-blank text, index write and catalog insert
succeed, and the generated document id is fresh in both stores), the
response reports `chunks = n`, exactly `n` vector records tagged with the
document id are in the index, and the new catalog row records `chunks = n`,
where `n` is the number of chunks the splitter produced. -/
theorem c9_chunk_count_invariant (env : UploadEnv) (st : AppState)
    (u d f text : String)
    (hvf : validExt f = true)
    (hex : env.extract (uploadPath u d f) = .ok text)
    (htext : isBlank text = false)
    (hiw : env.indexWrite = .ok ())
    (hcw : env.catalogWrite = .ok ())
    (hfresh : ∀ r ∈ st.index, r.payload.doc_id ≠ d)
    (hcat : ∀ row ∈ st.catalog, row.id ≠ d) :
    (upload env st u d f).1
      = .ok { message := uploadResponseMsg, doc_id := d, filename := f
            , chunks := (env.split text).length }
  ∧ (upload env st u d f).2.index.countP (fun r => r.payload.doc_id == d)
      = (env.split text).length
  ∧ (upload env st u d f).2.catalog.filter (fun row => row.id == d)
      = [{ id := d, user_id := u, filename := f, file_path := uploadPath u d f
         , chunks := (env.split text).length }] := by
  have hcore : upload env st u d f
      = (.ok { message := uploadResponseMsg, doc_id := d, filename := f
             , chunks := (env.split text).length }
        , { index := st.index ++ ingestRecs u d f (env.split text)
          , catalog := st.catalog ++ [ingestRow u d f (env.split text).length]
          , files := st.files ++ [uploadPath u d f] }) := by
    simp only [upload, uploadBody]
    rw [hvf, hex]
    simp [htext, hiw, hcw, ingestRecs, ingestRow]
  refine ⟨?_, ?_, ?_⟩
  · rw [hcore]
  · rw [hcore, List.countP_append]
    have hz : st.index.countP (fun r => r.payload.doc_id == d) = 0 :=
      List.countP_eq_zero.mpr (by intro r hr; simpa using hfresh r hr)
    have hall : (ingestRecs u d f (env.split text)).countP
        (fun r => r.payload.doc_id == d)
        = (ingestRecs u d f (env.split text)).length := by
      rw [List.countP_eq_length]
      intro r hr
      simp only [ingestRecs] at hr
      rcases List.mem_map.mp hr with ⟨p, hp, rfl⟩
      rcases List.of_mem_zip hp with ⟨_, h2⟩
      rcases List.mem_map.mp h2 with ⟨i, _, hEq⟩
      rw [← hEq]
      simp
    have hlen : (ingestRecs u d f (env.split text)).length
        = (env.split text).length := by
      simp [ingestRecs, List.length_zip]
    rw [hz, hall, hlen]
    simp
  · rw [hcore, List.filter_append]
    have hc0 : st.catalog.filter (fun row => row.id == d) = [] :=
      List.filter_eq_nil_iff.mpr (by intro row hrow; simpa using hcat row hrow)
    rw [hc0]
    simp [ingestRow]

/-- C9 witness: a concrete fully-successful upload of a.pdf on the empty
state; the splitter yields one chunk, and response, index and catalog all
record chunk count 1. -/
theorem c9_witness :
    validExt "a.pdf" = true
  ∧ envOk.extract (uploadPath "alice" "d1" "a.pdf") = .ok "hello world"
  ∧ isBlank "hello world" = false
  ∧ envOk.indexWrite = .ok ()
  ∧ envOk.catalogWrite = .ok ()
  ∧ (∀ r ∈ st0.index, r.payload.doc_id ≠ "d1")
  ∧ (∀ row ∈ st0.catalog, row.id ≠ "d1")
  ∧ ((upload envOk st0 "alice" "d1" "a.pdf").1
      = .ok { message := uploadResponseMsg, doc_id := "d1", filename := "a.pdf"
            , chunks := (envOk.split "hello world").length }
   ∧ (upload envOk st0 "alice" "d1" "a.pdf").2.index.countP
        (fun r => r.payload.doc_id == "d1") = (envOk.split "hello world").length
   ∧ (upload envOk st0 "alice" "d1" "a.pdf").2.catalog.filter
        (fun row => row.id == "d1")
      = [{ id := "d1", user_id := "alice", filename := "a.pdf"
         , file_path := uploadPath "alice" "d1" "a.pdf"
         , chunks := (envOk.split "hello world").length }]) :=
  ⟨by decide, rfl, by decide, rfl, rfl, by decide, by decide,
   c9_chunk_count_invariant envOk st0 "alice" "d1" "a.pdf" "hello world"
     (by decide) rfl (by decide) rfl rfl (by decide) (by decide)⟩

/-- C10: every failure inside the upload or chat handler body — including
the HTTP 400 validation rejections raised there — is caught by the blanket
exception clause and surfaces as HTTP 500 with the original message
wrapped into the detail; in particular an unsupported file type or a blank
query yields exactly the 500 wrapping the 400 message, and the caller
never observes a 400 from these handlers. -/
theorem c10_blanket_500 (env : UploadEnv) (st : AppState) (u d f : String)
    (o : ChatOracles) (uid q : String) :
    (∀ e, (upload env st u d f).1 = .error e →
        e.status = 500 ∧ ∃ m, e.detail = "Error processing document: " ++ m)
  ∧ (∀ e, (chat o uid q).1 = .error e →
        e.status = 500 ∧ ∃ m, e.detail = "Error processing chat: " ++ m)
  ∧ (validExt f = false →
      (upload env st u d f).1
        = .error { status := 500
                 , detail := "Error processing document: "
                     ++ pyStr (.httpExn 400 unsupportedDetail) })
  ∧ (isBlank q = true →
      (chat o uid q).1
        = .error { status := 500
                 , detail := "Error processing chat: "
                     ++ pyStr (.httpExn 400 "Query cannot be empty") }) := by
  refine ⟨?_, ?_, ?_, ?_⟩
  · intro e he
    unfold upload at he
    rcases hub : uploadBody env st u d f with ⟨r, st1⟩
    rw [hub] at he
    cases r with
    | ok v => exact absurd he (by simp)
    | error e0 =>
      have he2 : (Except.error { status := 500, detail := "Error processing document: " ++ pyStr e0 } : Except HttpError UploadResponse) = Except.error e := he
      have hxe := Except.error.inj he2
      subst hxe
      exact ⟨rfl, pyStr e0, rfl⟩
  · intro e he
    unfold chat at he
    rcases hcb : chatBody o uid q with ⟨r, ev⟩
    rw [hcb] at he
    cases r with
    | ok v => exact absurd he (by simp)
    | error e0 =>
      have he2 : (Except.error { status := 500, detail := "Error processing chat: " ++ pyStr e0 } : Except HttpError ChatResponse) = Except.error e := he
      have hxe := Except.error.inj he2
      subst hxe
      exact ⟨rfl, pyStr e0, rfl⟩
  · intro hvf
    unfold upload uploadBody
    rw [hvf]
    rfl
  · intro hq
    unfold chat chatBody
    rw [hq]
    rfl

/-- C10 witness: a concrete unsupported upload and a concrete blank-query
chat, both surfacing as the wrapped HTTP 500, via the theorem. -/
theorem c10_witness :
    validExt "evil.exe" = false
  ∧ (upload envOk st0 "u" "d" "evil.exe").1
      = .error { status := 500
               , detail := "Error processing document: "
                   ++ pyStr (.httpExn 400 unsupportedDetail) }
  ∧ isBlank " " = true
  ∧ (chat oracles0 "u" " ").1
      = .error { status := 500
               , detail := "Error processing chat: "
                   ++ pyStr (.httpExn 400 "Query cannot be empty") } :=
  ⟨by decide,
   (c10_blanket_500 envOk st0 "u" "d" "evil.exe" oracles0 "u" " ").2.2.1 (by decide),
   by decide,
   (c10_blanket_500 envOk st0 "u" "d" "evil.exe" oracles0 "u" " ").2.2.2 (by decide)⟩
